import Mathlib

/-!
Verification of the multichain-wallet HD address derivation service.

This file gives a shallow embedding, in Lean 4, of the parts of the Rust
source that the checked properties talk about: the chain registry
(`core/chain_info.rs`), the chain dispatch (`chains/mod.rs`), the
derivation-path value type (`core/types.rs`), the Ed25519 chain drivers
(`chains/stellar.rs`, `chains/near.rs`, `chains/solana.rs`,
`chains/sui.rs`, `chains/tezos.rs`) and the service layer
(`services/wallet.rs`).  Bytes are modelled as `Nat` values below 256,
machine words as `Nat` with explicit reduction modulo 2^32 / 2^64, Rust
`Result` as `Except`, and the cryptographic primitives the drivers call
(SHA-512, SHA-256, HMAC-SHA512, Blake2b, Ed25519 public keys, Base58,
hex) are implemented executably following the standards the Rust crates
(`sha2`, `hmac`, `blake2`, `ed25519-dalek`, `bs58`, `hex`) implement.
-/

set_option maxRecDepth 8192

/-! ## Byte and word helpers -/

/-- Truncate to a 64-bit word. -/
def w64 (n : Nat) : Nat := n % 18446744073709551616

/-- Truncate to a 32-bit word. -/
def w32 (n : Nat) : Nat := n % 4294967296

/-- Right rotation of a 64-bit word. -/
def rotr64 (x n : Nat) : Nat := w64 (x <<< (64 - n) ||| x >>> n)

/-- Right rotation of a 32-bit word. -/
def rotr32 (x n : Nat) : Nat := w32 (x <<< (32 - n) ||| x >>> n)

/-- Split a list into chunks of `n` elements; `fuel` bounds the recursion
structurally so the definition evaluates inside the kernel. -/
def chunksAux (n : Nat) : Nat → List Nat → List (List Nat)
  | 0, _ => []
  | _, [] => []
  | fuel + 1, l => l.take n :: chunksAux n fuel (l.drop n)

/-- Split a list of bytes into chunks of `n` bytes. -/
def chunks (n : Nat) (l : List Nat) : List (List Nat) := chunksAux n (l.length + 1) l

/-- Big-endian bytes of `n`, `len` bytes wide. -/
def natToBytesBE (len n : Nat) : List Nat :=
  (List.range len).map (fun i => (n >>> (8 * (len - 1 - i))) % 256)

/-- Little-endian bytes of `n`, `len` bytes wide. -/
def natToBytesLE (len n : Nat) : List Nat :=
  (List.range len).map (fun i => (n >>> (8 * i)) % 256)

/-- Big-endian value of a byte list. -/
def bytesBE (l : List Nat) : Nat := l.foldl (fun a b => a * 256 + b) 0

/-- Little-endian value of a byte list. -/
def bytesLE (l : List Nat) : Nat := l.foldr (fun b a => a * 256 + b) 0

/-- Big-endian 64-bit words of a byte list (length a multiple of 8). -/
def bytesToWords64 (l : List Nat) : List Nat := (chunks 8 l).map bytesBE

/-- Little-endian 64-bit words of a byte list (length a multiple of 8). -/
def bytesToWords64LE (l : List Nat) : List Nat := (chunks 8 l).map bytesLE

/-- The low `len` bits of `n`, least significant first; `fuel` bounds the
recursion structurally. -/
def natBits : Nat → Nat → List Bool
  | 0, _ => []
  | fuel + 1, n => (n % 2 = 1) :: natBits fuel (n / 2)

/-- ASCII bytes of a string. -/
def asciiBytes (s : String) : List Nat := s.data.map Char.toNat

/-! ## SHA-512 and SHA-256 (FIPS 180-4), as implemented by the `sha2` crate -/

def K512 : List Nat := [4794697086780616226, 8158064640168781261, 13096744586834688815, 16840607885511220156, 4131703408338449720, 6480981068601479193, 10538285296894168987, 12329834152419229976, 15566598209576043074, 1334009975649890238, 2608012711638119052, 6128411473006802146, 8268148722764581231, 9286055187155687089, 11230858885718282805, 13951009754708518548, 16472876342353939154, 17275323862435702243, 1135362057144423861, 2597628984639134821, 3308224258029322869, 5365058923640841347, 6679025012923562964, 8573033837759648693, 10970295158949994411, 12119686244451234320, 12683024718118986047, 13788192230050041572, 14330467153632333762, 15395433587784984357, 489312712824947311, 1452737877330783856, 2861767655752347644, 3322285676063803686, 5560940570517711597, 5996557281743188959, 7280758554555802590, 8532644243296465576, 9350256976987008742, 10552545826968843579, 11727347734174303076, 12113106623233404929, 14000437183269869457, 14369950271660146224, 15101387698204529176, 15463397548674623760, 17586052441742319658, 1182934255886127544, 1847814050463011016, 2177327727835720531, 2830643537854262169, 3796741975233480872, 4115178125766777443, 5681478168544905931, 6601373596472566643, 7507060721942968483, 8399075790359081724, 8693463985226723168, 9568029438360202098, 10144078919501101548, 10430055236837252648, 11840083180663258601, 13761210420658862357, 14299343276471374635, 14566680578165727644, 15097957966210449927, 16922976911328602910, 17689382322260857208, 500013540394364858, 748580250866718886, 1242879168328830382, 1977374033974150939, 2944078676154940804, 3659926193048069267, 4368137639120453308, 4836135668995329356, 5532061633213252278, 6448918945643986474, 6902733635092675308, 7801388544844847127]

def IV512 : List Nat := [7640891576956012808, 13503953896175478587, 4354685564936845355, 11912009170470909681, 5840696475078001361, 11170449401992604703, 2270897969802886507, 6620516959819538809]

def K256 : List Nat := [1116352408, 1899447441, 3049323471, 3921009573, 961987163, 1508970993, 2453635748, 2870763221, 3624381080, 310598401, 607225278, 1426881987, 1925078388, 2162078206, 2614888103, 3248222580, 3835390401, 4022224774, 264347078, 604807628, 770255983, 1249150122, 1555081692, 1996064986, 2554220882, 2821834349, 2952996808, 3210313671, 3336571891, 3584528711, 113926993, 338241895, 666307205, 773529912, 1294757372, 1396182291, 1695183700, 1986661051, 2177026350, 2456956037, 2730485921, 2820302411, 3259730800, 3345764771, 3516065817, 3600352804, 4094571909, 275423344, 430227734, 506948616, 659060556, 883997877, 958139571, 1322822218, 1537002063, 1747873779, 1955562222, 2024104815, 2227730452, 2361852424, 2428436474, 2756734187, 3204031479, 3329325298]

def IV256 : List Nat := [1779033703, 3144134277, 1013904242, 2773480762, 1359893119, 2600822924, 528734635, 1541459225]

/-- State of the SHA-2 compression function: eight working variables. -/
structure Sha2State where
  a : Nat
  b : Nat
  c : Nat
  d : Nat
  e : Nat
  f : Nat
  g : Nat
  h : Nat
deriving Repr

/-- One SHA-512 round. -/
def sha512Round (s : Sha2State) (kw : Nat × Nat) : Sha2State :=
  let S1 := w64 (rotr64 s.e 14 ^^^ rotr64 s.e 18 ^^^ rotr64 s.e 41)
  let ch := w64 ((s.e &&& s.f) ^^^ ((18446744073709551615 - s.e) &&& s.g))
  let t1 := w64 (s.h + S1 + ch + kw.1 + kw.2)
  let S0 := w64 (rotr64 s.a 28 ^^^ rotr64 s.a 34 ^^^ rotr64 s.a 39)
  let mj := w64 ((s.a &&& s.b) ^^^ (s.a &&& s.c) ^^^ (s.b &&& s.c))
  let t2 := w64 (S0 + mj)
  ⟨w64 (t1 + t2), s.a, s.b, s.c, w64 (s.d + t1), s.e, s.f, s.g⟩

/-- Extend 16 message words to the 80-word SHA-512 schedule.  The sliding
window holds the last 16 words, oldest first. -/
def sha512Schedule (w16 : List Nat) : List Nat :=
  let step := fun (st : List Nat × List Nat) (_ : Nat) =>
    let win := st.1
    let s0w := win.getD 1 0
    let s1w := win.getD 14 0
    let s0 := w64 (rotr64 s0w 1 ^^^ rotr64 s0w 8 ^^^ (s0w >>> 7))
    let s1 := w64 (rotr64 s1w 19 ^^^ rotr64 s1w 61 ^^^ (s1w >>> 6))
    let nw := w64 (win.getD 0 0 + s0 + win.getD 9 0 + s1)
    (win.drop 1 ++ [nw], st.2 ++ [nw])
  (((List.range 64).foldl step (w16, w16))).2

/-- Compress one 128-byte block into the running SHA-512 state. -/
def sha512Compress (hs : List Nat) (block : List Nat) : List Nat :=
  let w := sha512Schedule (bytesToWords64 block)
  let init : Sha2State :=
    ⟨hs.getD 0 0, hs.getD 1 0, hs.getD 2 0, hs.getD 3 0,
     hs.getD 4 0, hs.getD 5 0, hs.getD 6 0, hs.getD 7 0⟩
  let s := (K512.zip w).foldl sha512Round init
  [w64 (hs.getD 0 0 + s.a), w64 (hs.getD 1 0 + s.b), w64 (hs.getD 2 0 + s.c),
   w64 (hs.getD 3 0 + s.d), w64 (hs.getD 4 0 + s.e), w64 (hs.getD 5 0 + s.f),
   w64 (hs.getD 6 0 + s.g), w64 (hs.getD 7 0 + s.h)]

/-- SHA-512 padding: 0x80, zeros, and the 128-bit big-endian bit length. -/
def sha512Pad (msg : List Nat) : List Nat :=
  let padZeros := (128 - ((msg.length + 17) % 128)) % 128
  msg ++ [128] ++ List.replicate padZeros 0 ++ natToBytesBE 16 (8 * msg.length)

/-- SHA-512 digest (64 bytes) of a byte list. -/
def sha512 (msg : List Nat) : List Nat :=
  let hs := (chunks 128 (sha512Pad msg)).foldl sha512Compress IV512
  hs.flatMap (natToBytesBE 8)

/-- One SHA-256 round. -/
def sha256Round (s : Sha2State) (kw : Nat × Nat) : Sha2State :=
  let S1 := w32 (rotr32 s.e 6 ^^^ rotr32 s.e 11 ^^^ rotr32 s.e 25)
  let ch := w32 ((s.e &&& s.f) ^^^ ((4294967295 - s.e) &&& s.g))
  let t1 := w32 (s.h + S1 + ch + kw.1 + kw.2)
  let S0 := w32 (rotr32 s.a 2 ^^^ rotr32 s.a 13 ^^^ rotr32 s.a 22)
  let mj := w32 ((s.a &&& s.b) ^^^ (s.a &&& s.c) ^^^ (s.b &&& s.c))
  let t2 := w32 (S0 + mj)
  ⟨w32 (t1 + t2), s.a, s.b, s.c, w32 (s.d + t1), s.e, s.f, s.g⟩

/-- Big-endian 32-bit words of a byte list (length a multiple of 4). -/
def bytesToWords32 (l : List Nat) : List Nat := (chunks 4 l).map bytesBE

/-- Extend 16 message words to the 64-word SHA-256 schedule. -/
def sha256Schedule (w16 : List Nat) : List Nat :=
  let step := fun (st : List Nat × List Nat) (_ : Nat) =>
    let win := st.1
    let s0w := win.getD 1 0
    let s1w := win.getD 14 0
    let s0 := w32 (rotr32 s0w 7 ^^^ rotr32 s0w 18 ^^^ (s0w >>> 3))
    let s1 := w32 (rotr32 s1w 17 ^^^ rotr32 s1w 19 ^^^ (s1w >>> 10))
    let nw := w32 (win.getD 0 0 + s0 + win.getD 9 0 + s1)
    (win.drop 1 ++ [nw], st.2 ++ [nw])
  (((List.range 48).foldl step (w16, w16))).2

/-- Compress one 64-byte block into the running SHA-256 state. -/
def sha256Compress (hs : List Nat) (block : List Nat) : List Nat :=
  let w := sha256Schedule (bytesToWords32 block)
  let init : Sha2State :=
    ⟨hs.getD 0 0, hs.getD 1 0, hs.getD 2 0, hs.getD 3 0,
     hs.getD 4 0, hs.getD 5 0, hs.getD 6 0, hs.getD 7 0⟩
  let s := (K256.zip w).foldl sha256Round init
  [w32 (hs.getD 0 0 + s.a), w32 (hs.getD 1 0 + s.b), w32 (hs.getD 2 0 + s.c),
   w32 (hs.getD 3 0 + s.d), w32 (hs.getD 4 0 + s.e), w32 (hs.getD 5 0 + s.f),
   w32 (hs.getD 6 0 + s.g), w32 (hs.getD 7 0 + s.h)]

/-- SHA-256 padding: 0x80, zeros, and the 64-bit big-endian bit length. -/
def sha256Pad (msg : List Nat) : List Nat :=
  let padZeros := (64 - ((msg.length + 9) % 64)) % 64
  msg ++ [128] ++ List.replicate padZeros 0 ++ natToBytesBE 8 (8 * msg.length)

/-- SHA-256 digest (32 bytes) of a byte list. -/
def sha256 (msg : List Nat) : List Nat :=
  let hs := (chunks 64 (sha256Pad msg)).foldl sha256Compress IV256
  hs.flatMap (natToBytesBE 4)

/-- HMAC-SHA512 (RFC 2104) as implemented by the `hmac` crate. -/
def hmacSha512 (key msg : List Nat) : List Nat :=
  let k0 := if key.length > 128 then sha512 key else key
  let kp := k0 ++ List.replicate (128 - k0.length) 0
  let ipad := kp.map (fun b => b ^^^ 54)
  let opad := kp.map (fun b => b ^^^ 92)
  sha512 (opad ++ sha512 (ipad ++ msg))

example : sha512 [] = [207, 131, 225, 53, 126, 239, 184, 189, 241, 84, 40, 80, 214, 109, 128, 7, 214, 32, 228, 5, 11, 87, 21, 220, 131, 244, 169, 33, 211, 108, 233, 206, 71, 208, 209, 60, 93, 133, 242, 176, 255, 131, 24, 210, 135, 126, 236, 47, 99, 185, 49, 189, 71, 65, 122, 129, 165, 56, 50, 122, 249, 39, 218, 62] := by decide

example : (sha256 []).take 8 = [227, 176, 196, 66, 152, 252, 28, 20] := by decide

example : (hmacSha512 (asciiBytes "ed25519 seed") (List.replicate 64 0)).take 8 = [175, 121, 10, 220, 28, 143, 96, 67] := by decide

/-! ## Blake2b (RFC 7693), as implemented by the `blake2` crate.
The digest length `nn` (in bytes) is a parameter of the hash: it enters
the initialisation of `h0`, so Blake2b-160 is not a truncation of
Blake2b-256. -/

def blakeSigma : List (List Nat) := [List.range 16, [14, 10, 4, 8, 9, 15, 13, 6, 1, 12, 0, 2, 11, 7, 5, 3], [11, 8, 12, 0, 5, 2, 15, 13, 10, 14, 3, 6, 7, 1, 9, 4], [7, 9, 3, 1, 13, 12, 11, 14, 2, 6, 5, 10, 4, 0, 15, 8], [9, 0, 5, 7, 2, 4, 10, 15, 14, 1, 11, 12, 6, 8, 3, 13], [2, 12, 6, 10, 0, 11, 8, 3, 4, 13, 7, 5, 15, 14, 1, 9], [12, 5, 1, 15, 14, 13, 4, 10, 0, 7, 6, 3, 9, 2, 8, 11], [13, 11, 7, 14, 12, 1, 3, 9, 5, 0, 15, 4, 8, 6, 2, 10], [6, 15, 14, 9, 11, 3, 0, 8, 12, 2, 13, 7, 1, 4, 10, 5], [10, 2, 8, 4, 7, 6, 1, 5, 15, 11, 9, 14, 3, 12, 13, 0]]

/-- Set position `i` of a list. -/
def listSet (l : List Nat) (i v : Nat) : List Nat :=
  (l.take i) ++ [v] ++ (l.drop (i + 1))

/-- The Blake2b G mixing function acting on the 16-word work vector. -/
def blakeG (v : List Nat) (a b c d x y : Nat) : List Nat :=
  let va := w64 (v.getD a 0 + v.getD b 0 + x)
  let vd := rotr64 ((v.getD d 0) ^^^ va) 32
  let vc := w64 (v.getD c 0 + vd)
  let vb := rotr64 ((v.getD b 0) ^^^ vc) 24
  let va2 := w64 (va + vb + y)
  let vd2 := rotr64 (vd ^^^ va2) 16
  let vc2 := w64 (vc + vd2)
  let vb2 := rotr64 (vb ^^^ vc2) 63
  listSet (listSet (listSet (listSet v a va2) b vb2) c vc2) d vd2

/-- One Blake2b round with message words `m` and sigma row `s`. -/
def blakeRound (m : List Nat) (v : List Nat) (s : List Nat) : List Nat :=
  let g := fun v a b c d i j => blakeG v a b c d (m.getD (s.getD i 0) 0) (m.getD (s.getD j 0) 0)
  let v := g v 0 4 8 12 0 1
  let v := g v 1 5 9 13 2 3
  let v := g v 2 6 10 14 4 5
  let v := g v 3 7 11 15 6 7
  let v := g v 0 5 10 15 8 9
  let v := g v 1 6 11 12 10 11
  let v := g v 2 7 8 13 12 13
  let v := g v 3 4 9 14 14 15
  v

/-- Blake2b compression: state `h`, one 128-byte block, byte counter `t`,
finalisation flag `f`. -/
def blakeCompress (h : List Nat) (block : List Nat) (t : Nat) (f : Bool) : List Nat :=
  let m := bytesToWords64LE (block ++ List.replicate (128 - block.length) 0)
  let v0 := h ++ IV512
  let v1 := listSet v0 12 ((v0.getD 12 0) ^^^ w64 t)
  let v2 := if f then listSet v1 14 ((v1.getD 14 0) ^^^ 18446744073709551615) else v1
  let v := (List.range 12).foldl (fun v r => blakeRound m v (blakeSigma.getD (r % 10) [])) v2
  (List.range 8).map (fun i => (h.getD i 0) ^^^ (v.getD i 0) ^^^ (v.getD (i + 8) 0))

/-- Unkeyed Blake2b with digest length `nn` bytes. -/
def blake2b (nn : Nat) (msg : List Nat) : List Nat :=
  let h0 := listSet IV512 0 ((IV512.getD 0 0) ^^^ (16842752 + nn))
  let blocks := if msg.length = 0 then [[]] else chunks 128 msg
  let n := blocks.length
  let step := fun (st : List Nat × Nat) (b : List Nat) =>
    let i := st.2
    if i + 1 = n then
      (blakeCompress st.1 b msg.length true, i + 1)
    else
      (blakeCompress st.1 b (128 * (i + 1)) false, i + 1)
  ((blocks.foldl step (h0, 0)).1.flatMap (natToBytesLE 8)).take nn

example : blake2b 20 (List.replicate 32 0) = [2, 16, 190, 166, 161, 57, 121, 125, 116, 170, 87, 100, 251, 34, 99, 152, 240, 127, 66, 196] := by decide

example : (blake2b 32 (List.replicate 32 0)).take 8 = [137, 235, 13, 106, 138, 105, 29, 174] := by decide

example : (blake2b 32 ((List.range 200).map (fun i => i + 1))).take 8 = [132, 193, 92, 246, 164, 69, 130, 38] := by decide

/-! ## Ed25519 public keys (RFC 8032), as implemented by `ed25519-dalek` -/

/-- The field prime 2^255 - 19. -/
def edP : Nat := 57896044618658097711785492504343953926634992332820282019728792003956564819949

/-- The twisted Edwards curve constant d. -/
def edD : Nat := 37095705934669439343138083508754565189542113879843219016388785533085940283555

/-- x coordinate of the Ed25519 base point. -/
def edBx : Nat := 15112221349535400772501151409588531511454012693041857206046113283949847762202

/-- y coordinate of the Ed25519 base point. -/
def edBy : Nat := 46316835694926478169428394003475163141307993866256225615783033603165251855960

/-- Subtraction mod the field prime. -/
def fsub (a b : Nat) : Nat := (a + edP - b % edP) % edP

/-- Multiplication mod the field prime. -/
def fmul (a b : Nat) : Nat := a * b % edP

/-- A point in extended homogeneous coordinates (X : Y : Z : T) with
x = X/Z, y = Y/Z, x*y = T/Z. -/
structure EdPoint where
  x : Nat
  y : Nat
  z : Nat
  t : Nat
deriving Repr, DecidableEq

/-- The neutral element. -/
def edZero : EdPoint := ⟨0, 1, 1, 0⟩

/-- The base point in extended coordinates. -/
def edB : EdPoint := ⟨edBx, edBy, 1, fmul edBx edBy⟩

/-- Unified point addition on edwards25519 (add-2008-hwcd-3). -/
def edAdd (p q : EdPoint) : EdPoint :=
  let a := fmul (fsub p.y p.x) (fsub q.y q.x)
  let b := fmul ((p.y + p.x) % edP) ((q.y + q.x) % edP)
  let c := fmul (fmul (2 * edD % edP) p.t) q.t
  let dd := fmul (2 * p.z % edP) q.z
  let e := fsub b a
  let f := fsub dd c
  let g := (dd + c) % edP
  let h := (b + a) % edP
  ⟨fmul e f, fmul g h, fmul f g, fmul e h⟩

/-- Scalar multiplication by double-and-add over the low 256 bits. -/
def edScalarMul (k : Nat) (p : EdPoint) : EdPoint :=
  ((natBits 256 k).foldl
    (fun (st : EdPoint × EdPoint) bit =>
      (if bit then edAdd st.1 st.2 else st.1, edAdd st.2 st.2))
    (edZero, p)).1

/-- Modular exponentiation with a structural bound on the exponent bits. -/
def powModAux : List Bool → Nat → Nat → Nat
  | [], _, _ => 1
  | bit :: rest, b, m =>
    let r := powModAux rest (b * b % m) m
    if bit then b * r % m else r

/-- b ^ e mod m (for m the field prime). -/
def fpow (b e : Nat) : Nat := powModAux (natBits 256 e) (b % edP) edP

/-- Field inverse by Fermat. -/
def finv (a : Nat) : Nat := fpow a (edP - 2)

/-- Compressed encoding of a point: 32 bytes, y little-endian with the
sign of x in the top bit. -/
def edEncode (p : EdPoint) : List Nat :=
  let zi := finv p.z
  let x := fmul p.x zi
  let y := fmul p.y zi
  natToBytesLE 32 (y + (x % 2) * 57896044618658097711785492504343953926634992332820282019728792003956564819968)

/-- Clamp the low 32 bytes of the SHA-512 of the secret, per RFC 8032. -/
def edClamp (n : Nat) : Nat :=
  (n &&& 28948022309329048855892746252171976963317496166410141009864396001978282409976) |||
    28948022309329048855892746252171976963317496166410141009864396001978282409984

/-- Ed25519 public key (32 bytes) of a 32-byte secret key, as
`ed25519-dalek`'s `SigningKey::verifying_key` computes it. -/
def ed25519PublicKey (secret : List Nat) : List Nat :=
  let h := sha512 secret
  let a := edClamp (bytesLE (h.take 32))
  edEncode (edScalarMul a edB)

example : ed25519PublicKey [157, 97, 177, 157, 239, 253, 90, 96, 186, 132, 74, 244, 146, 236, 44, 196, 68, 73, 197, 105, 123, 50, 105, 25, 112, 59, 172, 3, 28, 174, 127, 96] = [215, 90, 152, 1, 130, 177, 10, 183, 213, 75, 254, 211, 201, 100, 7, 58, 14, 225, 114, 243, 218, 166, 35, 37, 175, 2, 26, 104, 247, 7, 81, 26] := by decide

/-! ## Hex and Base58 encoders (`hex`, `bs58` crates) -/

/-- Lowercase hex alphabet. -/
def hexChars : List Char := "0123456789abcdef".data

/-- Lowercase hex encoding of a byte list (`hex::encode`). -/
def hexEncode (l : List Nat) : String :=
  String.mk (l.flatMap (fun b => [hexChars.getD (b / 16) ' ', hexChars.getD (b % 16) ' ']))

/-- The Bitcoin Base58 alphabet. -/
def base58Alphabet : List Char :=
  "123456789ABCDEFGHJKLMNPQRSTUVWXYZabcdefghijkmnopqrstuvwxyz".data

/-- Base-58 digits of `n`, most significant first; `fuel` bounds the
recursion structurally. -/
def base58Digits : Nat → Nat → List Char
  | 0, _ => []
  | fuel + 1, n =>
    if n = 0 then []
    else base58Digits fuel (n / 58) ++ [base58Alphabet.getD (n % 58) ' ']

/-- Base58 encoding with the Bitcoin alphabet (`bs58::encode`): leading
zero bytes become leading ones, the rest is the big-endian value in
base 58. -/
def base58Encode (data : List Nat) : String :=
  let zeros := (data.takeWhile (fun b => b = 0)).length
  String.mk (List.replicate zeros '1' ++ base58Digits (2 * data.length + 1) (bytesBE data))

example : hexEncode [0, 171, 255] = "00abff" := by decide

example : base58Encode [0, 0, 1, 17] = "115i" := by decide

/-! ## Decimal rendering and parsing of path components

Rust's `format!` renders `u32` values in decimal; `decRepr` models that.
A parser for path strings is needed by the path-stability property; the
repository itself contains none, so `parse_derivation_path` below is
modelled from the spec's display grammar. -/

/-- The ASCII digit for `n < 10`. -/
def digitChar (n : Nat) : Char := Char.ofNat (48 + n)

/-- The value of an ASCII digit. -/
def digitVal (c : Char) : Nat := c.toNat - 48

/-- Decimal digits of `n`, most significant first; `fuel` bounds the
recursion structurally. -/
def decAux : Nat → Nat → List Char
  | 0, _ => []
  | fuel + 1, n =>
    if n < 10 then [digitChar n] else decAux fuel (n / 10) ++ [digitChar (n % 10)]

/-- Decimal representation of `n` as characters. -/
def decRepr (n : Nat) : List Char := decAux (n + 1) n

/-- Value of a digit string, most significant first. -/
def foldDigits (l : List Char) : Nat := l.foldl (fun a c => a * 10 + digitVal c) 0

theorem decAux_fuel (n : Nat) : ∀ f1 f2, n < f1 → n < f2 → decAux f1 n = decAux f2 n := by
  induction n using Nat.strong_induction_on with
  | _ n ihn =>
    intro f1 f2 h1 h2
    cases f1 with
    | zero => omega
    | succ f1 =>
      cases f2 with
      | zero => omega
      | succ f2 =>
        by_cases hlt : n < 10
        · simp [decAux, hlt]
        · have hd : n / 10 < n := Nat.div_lt_self (by omega) (by omega)
          simp only [decAux, if_neg hlt]
          rw [ihn (n / 10) hd f1 f2 (by omega) (by omega)]

theorem digitVal_digitChar (n : Nat) (h : n < 10) : digitVal (digitChar n) = n := by
  interval_cases n <;> decide

theorem digitChar_isDigit (n : Nat) (h : n < 10) : (digitChar n).isDigit = true := by
  interval_cases n <;> decide

theorem foldDigits_decRepr (n : Nat) : foldDigits (decRepr n) = n := by
  induction n using Nat.strong_induction_on with
  | _ n ihn =>
    by_cases hlt : n < 10
    · show foldDigits (decAux (n + 1) n) = n
      simp only [decAux, if_pos hlt]
      simp [foldDigits, digitVal_digitChar n hlt]
    · have hd : n / 10 < n := Nat.div_lt_self (by omega) (by omega)
      show foldDigits (decAux (n + 1) n) = n
      simp only [decAux, if_neg hlt]
      rw [decAux_fuel (n / 10) n (n / 10 + 1) (by omega) (by omega)]
      show foldDigits (decRepr (n / 10) ++ [digitChar (n % 10)]) = n
      have hfold : foldDigits (decRepr (n / 10) ++ [digitChar (n % 10)])
          = foldDigits (decRepr (n / 10)) * 10 + digitVal (digitChar (n % 10)) := by
        simp [foldDigits, List.foldl_append]
      rw [hfold, ihn (n / 10) hd, digitVal_digitChar (n % 10) (by omega)]
      omega

theorem decRepr_digits (n : Nat) : ∀ c ∈ decRepr n, c.isDigit = true := by
  induction n using Nat.strong_induction_on with
  | _ n ihn =>
    by_cases hlt : n < 10
    · show ∀ c ∈ decAux (n + 1) n, c.isDigit = true
      simp only [decAux, if_pos hlt]
      intro c hc
      simp only [List.mem_singleton] at hc
      subst hc
      exact digitChar_isDigit n hlt
    · have hd : n / 10 < n := Nat.div_lt_self (by omega) (by omega)
      show ∀ c ∈ decAux (n + 1) n, c.isDigit = true
      simp only [decAux, if_neg hlt]
      rw [decAux_fuel (n / 10) n (n / 10 + 1) (by omega) (by omega)]
      intro c hc
      rcases List.mem_append.mp hc with hl | hr
      · exact ihn (n / 10) hd c hl
      · simp only [List.mem_singleton] at hr
        subst hr
        exact digitChar_isDigit (n % 10) (by omega)

theorem decRepr_ne_nil (n : Nat) : decRepr n ≠ [] := by
  show decAux (n + 1) n ≠ []
  by_cases h : n < 10
  · simp [decAux, h]
  · simp [decAux, h]

theorem takeWhile_append_of_all (p : Char → Bool) (l1 l2 : List Char)
    (h : ∀ c ∈ l1, p c = true) :
    List.takeWhile p (l1 ++ l2) = l1 ++ List.takeWhile p l2 := by
  induction l1 with
  | nil => simp
  | cons a l1 ih =>
    have ha : p a = true := h a (List.mem_cons_self a l1)
    have hrest := ih (fun c hc => h c (List.mem_cons_of_mem a hc))
    simp only [List.cons_append, List.takeWhile_cons, ha, if_true, hrest]

theorem dropWhile_append_of_all (p : Char → Bool) (l1 l2 : List Char)
    (h : ∀ c ∈ l1, p c = true) :
    List.dropWhile p (l1 ++ l2) = List.dropWhile p l2 := by
  induction l1 with
  | nil => simp
  | cons a l1 ih =>
    have ha : p a = true := h a (List.mem_cons_self a l1)
    have hrest := ih (fun c hc => h c (List.mem_cons_of_mem a hc))
    simp only [List.cons_append, List.dropWhile_cons, ha, if_true, hrest]

/-- Does the list start with an ASCII digit? -/
def headIsDigit (l : List Char) : Bool :=
  match l with
  | [] => false
  | c :: _ => c.isDigit

/-- Parse a nonempty run of leading digits as a decimal number. -/
def parseNum (l : List Char) : Option (Nat × List Char) :=
  let ds := l.takeWhile Char.isDigit
  if ds.isEmpty then none
  else some (foldDigits ds, l.dropWhile Char.isDigit)

theorem parseNum_decRepr (n : Nat) (rest : List Char) (h : headIsDigit rest = false) :
    parseNum (decRepr n ++ rest) = some (n, rest) := by
  have htw : List.takeWhile Char.isDigit rest = [] := by
    cases rest with
    | nil => rfl
    | cons c r =>
      simp only [headIsDigit] at h
      simp [List.takeWhile_cons, h]
  have hdw : List.dropWhile Char.isDigit rest = rest := by
    cases rest with
    | nil => rfl
    | cons c r =>
      simp only [headIsDigit] at h
      simp [List.dropWhile_cons, h]
  simp only [parseNum, takeWhile_append_of_all Char.isDigit _ rest (decRepr_digits n),
    dropWhile_append_of_all Char.isDigit _ rest (decRepr_digits n), htw, hdw,
    List.append_nil]
  have hne : (decRepr n).isEmpty = false := by
    cases hd : decRepr n with
    | nil => exact absurd hd (decRepr_ne_nil n)
    | cons a l => rfl
  simp [hne, foldDigits_decRepr n]

/-! ## The derivation-path value type (`core/types.rs`) -/

/-- The apostrophe marking a hardened component in display form. -/
def tickChar : Char := Char.ofNat 39

/-- The 5-tuple `DerivationPath` of `core/types.rs`: unsigned integers
`(purpose, coin_type, account, change, index)`; hardening is applied by
the derivation engines, not stored here. -/
structure DerivationPath where
  purpose : Nat
  coin_type : Nat
  account : Nat
  change : Nat
  index : Nat
deriving Repr, DecidableEq

/-- Character sequence of the mixed display form
`m/p'/c'/a'/ch/i` (`DerivationPath::to_string`). -/
def pathCharsMixed (p : DerivationPath) : List Char :=
  'm' :: '/' :: (decRepr p.purpose ++ (tickChar :: '/' :: (decRepr p.coin_type ++
    (tickChar :: '/' :: (decRepr p.account ++ (tickChar :: '/' :: (decRepr p.change ++
      ('/' :: decRepr p.index))))))))

/-- Character sequence of the all-hardened display form
`m/p'/c'/a'/ch'/i'` (`DerivationPath::to_string_all_hardened`). -/
def pathCharsAllHardened (p : DerivationPath) : List Char :=
  'm' :: '/' :: (decRepr p.purpose ++ (tickChar :: '/' :: (decRepr p.coin_type ++
    (tickChar :: '/' :: (decRepr p.account ++ (tickChar :: '/' :: (decRepr p.change ++
      (tickChar :: '/' :: (decRepr p.index ++ [tickChar])))))))))

/-- Source `DerivationPath::to_string`: `format!` of the mixed display form. -/
def DerivationPath.to_string (p : DerivationPath) : String :=
  String.mk (pathCharsMixed p)

/-- Source `DerivationPath::to_string_all_hardened`: `format!` of the
all-hardened display form. -/
def DerivationPath.to_string_all_hardened (p : DerivationPath) : String :=
  String.mk (pathCharsAllHardened p)

/-- Drop one leading hardening mark, if present. -/
def skipTick : List Char → List Char
  | [] => []
  | c :: r => if c = tickChar then r else c :: r

/-- Parse one path component: a slash, a decimal number, an optional
hardening mark. -/
def parseComp (l : List Char) : Option (Nat × List Char) :=
  match l with
  | '/' :: rest => (parseNum rest).map (fun nr => (nr.1, skipTick nr.2))
  | _ => none

/-- Modelled from the spec: the repository has no parser for
derivation-path strings, so this one is built from the spec's display
grammar (section 3: the two display forms `m/p'/c'/a'/ch/i` and
`m/p'/c'/a'/ch'/i'`): `m`, then exactly five slash-led decimal
components, each optionally carrying a hardening mark, and nothing
after the fifth. -/
def parse_derivation_path (s : String) : Option DerivationPath :=
  match s.data with
  | 'm' :: rest =>
    (parseComp rest).bind (fun c1 =>
      (parseComp c1.2).bind (fun c2 =>
        (parseComp c2.2).bind (fun c3 =>
          (parseComp c3.2).bind (fun c4 =>
            (parseComp c4.2).bind (fun c5 =>
              if c5.2 = [] then
                some ⟨c1.1, c2.1, c3.1, c4.1, c5.1⟩
              else none)))))
  | _ => none

theorem parseComp_shape (x : Nat) (rest : List Char) (h : headIsDigit rest = false) :
    parseComp ('/' :: (decRepr x ++ rest)) = some (x, skipTick rest) := by
  simp [parseComp, parseNum_decRepr x rest h]

theorem skipTick_tick (l : List Char) : skipTick (tickChar :: l) = l := by
  simp [skipTick]

theorem skipTick_slash (l : List Char) : skipTick ('/' :: l) = '/' :: l := by
  show (if ('/' : Char) = tickChar then l else '/' :: l) = '/' :: l
  rw [if_neg (by decide)]

theorem parse_mixed_roundtrip (p : DerivationPath) :
    parse_derivation_path p.to_string = some p := by
  show parse_derivation_path (String.mk (pathCharsMixed p)) = some p
  simp only [parse_derivation_path, pathCharsMixed]
  rw [parseComp_shape p.purpose _ (by rfl)]
  simp only [skipTick_tick, Option.some_bind]
  rw [parseComp_shape p.coin_type _ (by rfl)]
  simp only [skipTick_tick, Option.some_bind]
  rw [parseComp_shape p.account _ (by rfl)]
  simp only [skipTick_tick, Option.some_bind]
  rw [parseComp_shape p.change _ (by rfl)]
  simp only [skipTick_slash, Option.some_bind]
  have hlast := parseComp_shape p.index [] (by rfl)
  rw [List.append_nil] at hlast
  rw [hlast]
  simp only [skipTick, Option.some_bind]
  rfl

theorem parse_all_hardened_roundtrip (p : DerivationPath) :
    parse_derivation_path p.to_string_all_hardened = some p := by
  show parse_derivation_path (String.mk (pathCharsAllHardened p)) = some p
  simp only [parse_derivation_path, pathCharsAllHardened]
  rw [parseComp_shape p.purpose _ (by rfl)]
  simp only [skipTick_tick, Option.some_bind]
  rw [parseComp_shape p.coin_type _ (by rfl)]
  simp only [skipTick_tick, Option.some_bind]
  rw [parseComp_shape p.account _ (by rfl)]
  simp only [skipTick_tick, Option.some_bind]
  rw [parseComp_shape p.change _ (by rfl)]
  simp only [skipTick_tick, Option.some_bind]
  rw [parseComp_shape p.index [tickChar] (by rfl)]
  simp only [skipTick_tick, Option.some_bind]
  rfl

/-! ## Chain registry (`core/chain_info.rs`) -/

/-- The closed `ChainType` enumeration of `core/chain_info.rs`. -/
inductive ChainType where
  | BitcoinLegacy
  | BitcoinSegwit
  | BitcoinTaproot
  | Ethereum
  | Ripple
  | Solana
  | Tron
  | Sui
  | Stellar
  | Monero
  | Near
  | Ton
  | Dogecoin
  | Polkadot
  | Cosmos
  | Osmosis
  | Juno
  | Secret
  | Akash
  | Sei
  | Celestia
  | Injective
  | Tezos
  | Eos
  | Hedera
  | Filecoin
  | Mina
  | InternetComputer
deriving Repr, DecidableEq, Fintype

/-- The `AddressFormat` tagged variant of `core/chain_info.rs`. -/
inductive AddressFormat where
  | Bitcoin (pre : String)
  | Ethereum
  | Base58 (version : Nat)
  | Bech32 (hrp : String)
  | Custom (tag : String)
deriving Repr, DecidableEq

/-- The `ChainInfo` record of `core/chain_info.rs`. -/
structure ChainInfo where
  name : String
  symbol : String
  coin_type : Nat
  decimals : Nat
  address_format : AddressFormat
deriving Repr, DecidableEq

/-- The chain registry `get_chain_info` of `core/chain_info.rs`. -/
def get_chain_info (c : ChainType) : ChainInfo :=
  match c with
  | .BitcoinLegacy => ⟨"Bitcoin", "BTC", 0, 8, .Bitcoin "1"⟩
  | .BitcoinSegwit => ⟨"Bitcoin", "BTC", 0, 8, .Bech32 "bc"⟩
  | .BitcoinTaproot => ⟨"Bitcoin", "BTC", 0, 8, .Bech32 "bc"⟩
  | .Ethereum => ⟨"Ethereum", "ETH", 60, 18, .Ethereum⟩
  | .Ripple => ⟨"Ripple", "XRP", 144, 6, .Base58 0⟩
  | .Solana => ⟨"Solana", "SOL", 501, 9, .Base58 0⟩
  | .Tron => ⟨"TRON", "TRX", 195, 6, .Base58 65⟩
  | .Sui => ⟨"Sui", "SUI", 784, 9, .Custom "0x"⟩
  | .Stellar => ⟨"Stellar", "XLM", 148, 7, .Custom "G"⟩
  | .Monero => ⟨"Monero", "XMR", 128, 12, .Custom "4"⟩
  | .Near => ⟨"NEAR Protocol", "NEAR", 397, 24, .Custom "implicit"⟩
  | .Ton => ⟨"Toncoin", "TON", 607, 9, .Custom "EQ"⟩
  | .Dogecoin => ⟨"Dogecoin", "DOGE", 3, 8, .Bitcoin "D"⟩
  | .Polkadot => ⟨"Polkadot", "DOT", 354, 10, .Custom "1"⟩
  | .Cosmos => ⟨"Cosmos", "ATOM", 118, 6, .Bech32 "cosmos"⟩
  | .Osmosis => ⟨"Osmosis", "OSMO", 118, 6, .Bech32 "osmo"⟩
  | .Juno => ⟨"Juno", "JUNO", 118, 6, .Bech32 "juno"⟩
  | .Secret => ⟨"Secret Network", "SCRT", 529, 6, .Bech32 "secret"⟩
  | .Akash => ⟨"Akash", "AKT", 118, 6, .Bech32 "akash"⟩
  | .Sei => ⟨"Sei", "SEI", 118, 6, .Bech32 "sei"⟩
  | .Celestia => ⟨"Celestia", "TIA", 118, 6, .Bech32 "celestia"⟩
  | .Injective => ⟨"Injective", "INJ", 60, 18, .Bech32 "inj"⟩
  | .Tezos => ⟨"Tezos", "XTZ", 1729, 6, .Custom "tz1"⟩
  | .Eos => ⟨"EOS", "EOS", 194, 4, .Custom "EOS"⟩
  | .Hedera => ⟨"Hedera", "HBAR", 3030, 8, .Custom "0.0."⟩
  | .Filecoin => ⟨"Filecoin", "FIL", 461, 18, .Custom "f1"⟩
  | .Mina => ⟨"Mina", "MINA", 12586, 9, .Custom "B62"⟩
  | .InternetComputer => ⟨"Internet Computer", "ICP", 223, 8, .Custom "principal"⟩

/-- Rust's `str::to_uppercase`, restricted to the ASCII mapping it
performs on the ASCII ticker symbols the registry is keyed by. -/
def rustToUppercase (s : String) : String := String.mk (s.data.map Char.toUpper)

/-- The symbol table of `get_chain_types_by_symbol`, one entry per match
arm, in the order of the source. -/
def symbolTable : List (String × List ChainType) :=
  [("BTC", [.BitcoinLegacy, .BitcoinSegwit, .BitcoinTaproot]),
   ("ETH", [.Ethereum]),
   ("XRP", [.Ripple]),
   ("SOL", [.Solana]),
   ("TRX", [.Tron]),
   ("SUI", [.Sui]),
   ("XLM", [.Stellar]),
   ("XMR", [.Monero]),
   ("NEAR", [.Near]),
   ("TON", [.Ton]),
   ("DOGE", [.Dogecoin]),
   ("DOT", [.Polkadot]),
   ("ATOM", [.Cosmos]),
   ("OSMO", [.Osmosis]),
   ("JUNO", [.Juno]),
   ("SCRT", [.Secret]),
   ("AKT", [.Akash]),
   ("SEI", [.Sei]),
   ("TIA", [.Celestia]),
   ("INJ", [.Injective]),
   ("XTZ", [.Tezos]),
   ("EOS", [.Eos]),
   ("HBAR", [.Hedera]),
   ("FIL", [.Filecoin]),
   ("MINA", [.Mina]),
   ("ICP", [.InternetComputer])]

/-- Source `get_chain_types_by_symbol` of `core/chain_info.rs`: match the
uppercased symbol against the table, anything else gives the empty
list. -/
def get_chain_types_by_symbol (symbol : String) : List ChainType :=
  match symbolTable.lookup (rustToUppercase symbol) with
  | some l => l
  | none => []

/-! ## Chain dispatch (`chains/mod.rs`) -/

/-- The `Network` argument of the Bitcoin-family constructors. -/
inductive Network where
  | Bitcoin
deriving Repr, DecidableEq

/-- One constructor per driver struct that `create_chain` can build
(the `Arc<dyn Chain>` payload). -/
inductive ChainImpl where
  | BitcoinLegacy (network : Network)
  | BitcoinSegwit (network : Network)
  | BitcoinTaproot (network : Network)
  | Ethereum
  | Ripple
  | Solana
  | Tron
  | Sui
  | Stellar
  | Near
  | Ton
  | Dogecoin (network : Network)
  | Polkadot
  | CosmosChain (chain_type : ChainType)
  | Tezos
  | Eos
  | Hedera
  | Filecoin
  | Mina
  | InternetComputer
deriving Repr, DecidableEq

/-- Source `create_chain` of `chains/mod.rs`.  The source's `match` has one arm
per listed variant and no arm at all for `ChainType::Monero` (and
`chains/mod.rs` declares no `monero` module); the missing arm is
modelled as `none`, every present arm as `some`. -/
def create_chain (chain_type : ChainType) : Option ChainImpl :=
  match chain_type with
  | .BitcoinLegacy => some (.BitcoinLegacy .Bitcoin)
  | .BitcoinSegwit => some (.BitcoinSegwit .Bitcoin)
  | .BitcoinTaproot => some (.BitcoinTaproot .Bitcoin)
  | .Ethereum => some .Ethereum
  | .Ripple => some .Ripple
  | .Solana => some .Solana
  | .Tron => some .Tron
  | .Sui => some .Sui
  | .Stellar => some .Stellar
  | .Near => some .Near
  | .Ton => some .Ton
  | .Dogecoin => some (.Dogecoin .Bitcoin)
  | .Polkadot => some .Polkadot
  | .Cosmos => some (.CosmosChain .Cosmos)
  | .Osmosis => some (.CosmosChain .Osmosis)
  | .Juno => some (.CosmosChain .Juno)
  | .Secret => some (.CosmosChain .Secret)
  | .Akash => some (.CosmosChain .Akash)
  | .Sei => some (.CosmosChain .Sei)
  | .Celestia => some (.CosmosChain .Celestia)
  | .Injective => some (.CosmosChain .Injective)
  | .Tezos => some .Tezos
  | .Eos => some .Eos
  | .Hedera => some .Hedera
  | .Filecoin => some .Filecoin
  | .Mina => some .Mina
  | .InternetComputer => some .InternetComputer
  | .Monero => none

/-! ## Errors (`errors.rs`) and output record (`core/types.rs`) -/

/-- The `ApiError` enumeration of `errors.rs`. -/
inductive ApiError where
  | InvalidWordCount (count : Nat)
  | InvalidLanguage (language : String)
  | InvalidMnemonic
  | InvalidDerivationPath (path : String)
  | CryptoError (message : String)
  | InternalError
  | BadRequest (message : String)
deriving Repr, DecidableEq

/-- The `WalletAddress` output record of `core/types.rs`. -/
structure WalletAddress where
  address : String
  chain_type : ChainType
  chain_info : ChainInfo
  derivation_path : String
  index : Nat
  public_key : String
  private_key : String
deriving Repr, DecidableEq

/-! ## SLIP-0010 as the spec states it (section 4.4.2) -/

/-- Modelled from the spec, for comparison with the drivers: one
hardened step of the SLIP-0010 Ed25519 engine of section 4.4.2 on a
(private key, chain code) pair: HMAC-SHA512(key=chain_code,
data=0x00 || priv || index_be32), split into the new pair. -/
def slip10_step (kc : List Nat × List Nat) (idx : Nat) : List Nat × List Nat :=
  let i := hmacSha512 kc.2 (0 :: (kc.1 ++ natToBytesBE 4 idx))
  (i.take 32, i.drop 32)

/-- Modelled from the spec, for comparison with the drivers: the
SLIP-0010 Ed25519 engine of section 4.4.2.  Master =
HMAC-SHA512(key="ed25519 seed", data=seed) split into private key and
chain code, then one hardened step per index. -/
def slip10_derive (seed : List Nat) (indices : List Nat) : List Nat :=
  (indices.foldl slip10_step
    ((hmacSha512 (asciiBytes "ed25519 seed") seed).take 32,
     (hmacSha512 (asciiBytes "ed25519 seed") seed).drop 32)).1

/-! ## Ed25519 chain drivers -/

namespace Stellar

/-- Source `Stellar::derivation_path` (`chains/stellar.rs`): `m/44'/148'/index'`
stored as the 5-tuple `(44, 148, index, 0, 0)`. -/
def derivation_path (index : Nat) : DerivationPath := ⟨44, 148, index, 0, 0⟩

/-- Source `Stellar::derive_ed25519_key` (`chains/stellar.rs` lines 85-111).
The function labels itself SLIP-0010 but chains plain SHA-512:
key = SHA512("ed25519 seed" || seed), then for each hardened index
key = SHA512(0x00 || key[..32] || index_be32); the right half (the
chain code) is never used as a key.  The source wraps the value in
`Ok`; there is no failure path, and the value is modelled directly. -/
def derive_ed25519_key (seed : List Nat) (path : DerivationPath) : List Nat :=
  let master := sha512 (asciiBytes "ed25519 seed" ++ seed)
  let indices := [2147483648 + path.purpose, 2147483648 + path.coin_type,
    2147483648 + path.account]
  let key := indices.foldl
    (fun key idx => sha512 (0 :: (key.take 32 ++ natToBytesBE 4 idx))) master
  key.take 32

end Stellar

namespace Near

/-- Source `Near::derivation_path` (`chains/near.rs`):
`m/44'/397'/0'/0'/index'`. -/
def derivation_path (index : Nat) : DerivationPath := ⟨44, 397, 0, 0, index⟩

/-- Source `Near::derive_ed25519_key` (`chains/near.rs` lines 72-100): the same
plain-SHA-512 chain as the Stellar driver, over all five path levels. -/
def derive_ed25519_key (seed : List Nat) (path : DerivationPath) : List Nat :=
  let master := sha512 (asciiBytes "ed25519 seed" ++ seed)
  let indices := [2147483648 + path.purpose, 2147483648 + path.coin_type,
    2147483648 + path.account, 2147483648 + path.change, 2147483648 + path.index]
  let key := indices.foldl
    (fun key idx => sha512 (0 :: (key.take 32 ++ natToBytesBE 4 idx))) master
  key.take 32

/-- Source `Near::generate_address` (`chains/near.rs` lines 22-49): derive,
take the Ed25519 public key, and use its lowercase hex as the implicit
account address. -/
def generate_address (seed : List Nat) (_passphrase : String) (index : Nat) :
    Except ApiError WalletAddress :=
  let path := derivation_path index
  let derived := derive_ed25519_key seed path
  let pub := ed25519PublicKey derived
  .ok ⟨hexEncode pub, .Near, get_chain_info .Near, path.to_string_all_hardened,
    index, hexEncode pub, hexEncode derived⟩

end Near

namespace Solana

/-- Source `Solana::derivation_path` (`chains/solana.rs`): the index is stored
in the account slot, `(44, 501, index, 0, 0)`. -/
def derivation_path (index : Nat) : DerivationPath := ⟨44, 501, index, 0, 0⟩

/-- Source `Solana::derive_ed25519_key` (`chains/solana.rs` lines 70-106):
genuine SLIP-0010, using HMAC-SHA512 and the chain code, over the three
hardened levels `44'/501'/index'`; the `path` parameter is ignored by
the source. -/
def derive_ed25519_key (seed : List Nat) (_path : DerivationPath) (index : Nat) : List Nat :=
  let master := hmacSha512 (asciiBytes "ed25519 seed") seed
  let indices := [2147483648 + 44, 2147483648 + 501, 2147483648 + index]
  let final := indices.foldl
    (fun (kc : List Nat × List Nat) idx =>
      let i := hmacSha512 kc.2 (0 :: (kc.1 ++ natToBytesBE 4 idx))
      (i.take 32, i.drop 32))
    (master.take 32, master.drop 32)
  final.1

/-- Source `Solana::generate_address` (`chains/solana.rs` lines 26-50): derive,
Base58-encode the public key, and emit the hand-formatted three-level
path string `m/44'/501'/{index}'`. -/
def generate_address (seed : List Nat) (_passphrase : String) (index : Nat) :
    Except ApiError WalletAddress :=
  let path := derivation_path index
  let derived := derive_ed25519_key seed path index
  let pub := ed25519PublicKey derived
  .ok ⟨base58Encode pub, .Solana, get_chain_info .Solana,
    String.mk ('m' :: '/' :: '4' :: '4' :: tickChar :: '/' :: '5' :: '0' :: '1' ::
      tickChar :: '/' :: (decRepr index ++ [tickChar])),
    index, hexEncode pub, hexEncode derived⟩

end Solana

namespace Sui

/-- Source `Sui::derivation_path` (`chains/sui.rs` lines 63-66): the fixed
all-hardened path `m/44'/784'/0'/0'/0'`; the index argument is ignored. -/
def derivation_path (_index : Nat) : DerivationPath := ⟨44, 784, 0, 0, 0⟩

/-- Source `Sui::derive_ed25519_key` (`chains/sui.rs` lines 84-122): genuine
SLIP-0010 over the five fixed hardened levels; only the seed enters. -/
def derive_ed25519_key (seed : List Nat) : List Nat :=
  let master := hmacSha512 (asciiBytes "ed25519 seed") seed
  let indices := [2147483648 + 44, 2147483648 + 784, 2147483648, 2147483648, 2147483648]
  let final := indices.foldl
    (fun (kc : List Nat × List Nat) idx =>
      let i := hmacSha512 kc.2 (0 :: (kc.1 ++ natToBytesBE 4 idx))
      (i.take 32, i.drop 32))
    (master.take 32, master.drop 32)
  final.1

/-- Source `Sui::generate_address` (`chains/sui.rs` lines 24-61): derive (from
the seed only), hash `0x00 || pub` with Blake2b-256, and emit the
0x-prefixed lowercase hex of the digest. -/
def generate_address (seed : List Nat) (_passphrase : String) (index : Nat) :
    Except ApiError WalletAddress :=
  let path := derivation_path index
  let derived := derive_ed25519_key seed
  let pub := ed25519PublicKey derived
  let hash := blake2b 32 (0 :: pub)
  .ok ⟨"0x" ++ hexEncode hash, .Sui, get_chain_info .Sui,
    path.to_string_all_hardened, index, hexEncode pub, hexEncode derived⟩

end Sui

namespace Tezos

/-- Source `Tezos::derivation_path` (`chains/tezos.rs`):
`m/44'/1729'/0'/0'/index'`. -/
def derivation_path (index : Nat) : DerivationPath := ⟨44, 1729, 0, 0, index⟩

/-- Source `Tezos::derive_ed25519_key` (`chains/tezos.rs` lines 102-130): the
same plain-SHA-512 chain as the NEAR driver, over all five levels. -/
def derive_ed25519_key (seed : List Nat) (path : DerivationPath) : List Nat :=
  let master := sha512 (asciiBytes "ed25519 seed" ++ seed)
  let indices := [2147483648 + path.purpose, 2147483648 + path.coin_type,
    2147483648 + path.account, 2147483648 + path.change, 2147483648 + path.index]
  let key := indices.foldl
    (fun key idx => sha512 (0 :: (key.take 32 ++ natToBytesBE 4 idx))) master
  key.take 32

/-- The Ed25519 public key the Tezos driver computes for `(seed, index)`
(`verifying_key.as_bytes()` in `Tezos::generate_address`). -/
def public_key_bytes (seed : List Nat) (index : Nat) : List Nat :=
  ed25519PublicKey (derive_ed25519_key seed (derivation_path index))

/-- Source `Tezos::generate_address` (`chains/tezos.rs` lines 23-64): payload =
0x06 0xA1 0x9F followed by the first 20 bytes of the Blake2b digest of
the public key, computed with `Blake2b::<typenum::U32>` (32-byte output)
and truncated; checksum = first 4 bytes of double SHA-256 of the
payload; address = Base58 of payload plus checksum. -/
def generate_address (seed : List Nat) (_passphrase : String) (index : Nat) :
    Except ApiError WalletAddress :=
  let path := derivation_path index
  let derived := derive_ed25519_key seed path
  let pub := public_key_bytes seed index
  let payload := 6 :: 161 :: 159 :: (blake2b 32 pub).take 20
  let checksum := sha256 (sha256 payload)
  let address := base58Encode (payload ++ checksum.take 4)
  .ok ⟨address, .Tezos, get_chain_info .Tezos, path.to_string_all_hardened,
    index, hexEncode pub, hexEncode derived⟩

end Tezos

/-- Base58Check as the spec's glossary defines it: Base58 of
`payload || double-SHA256(payload)[0..4]`. -/
def base58check (payload : List Nat) : String :=
  base58Encode (payload ++ (sha256 (sha256 payload)).take 4)

/-! ## Service layer (`services/wallet.rs`) -/

/-- The BIP-39 wordlist languages (`bip39::Language`). -/
inductive Bip39Language where
  | English
  | Japanese
  | Korean
  | Spanish
  | SimplifiedChinese
  | TraditionalChinese
  | French
  | Italian
  | Czech
  | Portuguese
deriving Repr, DecidableEq

/-- Rust's `str::to_lowercase`, restricted to the ASCII mapping it
performs on the ASCII language names the service matches on. -/
def rustToLowercase (s : String) : String := String.mk (s.data.map Char.toLower)

/-- Source `WalletService::parse_language` (`services/wallet.rs` lines
644-658). -/
def parse_language (language : String) : Except ApiError Bip39Language :=
  match rustToLowercase language with
  | "english" => .ok .English
  | "japanese" => .ok .Japanese
  | "korean" => .ok .Korean
  | "spanish" => .ok .Spanish
  | "chinese_simplified" => .ok .SimplifiedChinese
  | "chinese_traditional" => .ok .TraditionalChinese
  | "french" => .ok .French
  | "italian" => .ok .Italian
  | "czech" => .ok .Czech
  | "portuguese" => .ok .Portuguese
  | _ => .error (.InvalidLanguage language)

/-- Models `WalletService::generate_mnemonic` (`services/wallet.rs`
lines 22-48) up to the point where the entropy buffer is filled from
the CSPRNG: the returned number is the byte length of the
`vec![0u8; entropy_bytes]` buffer handed to the random generator, per
the source's match on `word_count`.  What the source does afterwards
(encode the sampled entropy as a BIP-39 phrase) consumes randomness and
stays outside the embedding. -/
def generate_mnemonic_entropy_bytes (language_str : String) (word_count : Nat) :
    Except ApiError Nat :=
  match parse_language language_str with
  | .error e => .error e
  | .ok _ =>
    if word_count = 12 then .ok 16
    else if word_count = 15 then .ok 20
    else if word_count = 18 then .ok 24
    else if word_count = 21 then .ok 28
    else if word_count = 24 then .ok 32
    else .error (.InvalidWordCount word_count)

/-- One row of the batch loop: generate each index of
`start_index..stop` for a fixed chain type, stopping at the first
error (the `?` in the source). -/
def genForChain (gen : ChainType → Nat → Except ApiError WalletAddress)
    (c : ChainType) : List Nat → Except ApiError (List WalletAddress)
  | [] => .ok []
  | i :: rest =>
    match gen c i with
    | .error e => .error e
    | .ok w =>
      match genForChain gen c rest with
      | .error e => .error e
      | .ok ws => .ok (w :: ws)

/-- The outer loop over chain types. -/
def batchChains (gen : ChainType → Nat → Except ApiError WalletAddress)
    (indices : List Nat) : List ChainType → Except ApiError (List WalletAddress)
  | [] => .ok []
  | c :: cs =>
    match genForChain gen c indices with
    | .error e => .error e
    | .ok ws =>
      match batchChains gen indices cs with
      | .error e => .error e
      | .ok rest => .ok (ws ++ rest)

/-- The index list of the Rust range `start..start+count` on `u32`: the
upper bound wraps modulo 2^32 and a bound not above the start yields an
empty range. -/
def u32RangeList (start stop : Nat) : List Nat := List.range' start (stop - start)

/-- Source `WalletService::batch_generate_wallet_addresses`
(`services/wallet.rs` lines 619-642): for each chain type in the given
order, for each `i in start_index..(start_index + count)`, call the
single-address generation and push the result; the first `Err` aborts
the whole batch via `?`.  The single-address generator the method calls
on `self` is passed as `gen`. -/
def batch_generate_wallet_addresses
    (gen : ChainType → Nat → Except ApiError WalletAddress)
    (address_types : List ChainType) (start_index count : Nat) :
    Except ApiError (List WalletAddress) :=
  batchChains gen (u32RangeList start_index ((start_index + count) % 4294967296))
    address_types

/-- The `(chain_type, index)` pairs the batch loop visits, in visit
order. -/
def batchPairs (address_types : List ChainType) (start_index count : Nat) :
    List (ChainType × Nat) :=
  address_types.flatMap (fun c =>
    (u32RangeList start_index ((start_index + count) % 4294967296)).map (fun i => (c, i)))

/-- Sequential generation over an explicit pair list, stopping at the
first error. -/
def runPairs (gen : ChainType → Nat → Except ApiError WalletAddress) :
    List (ChainType × Nat) → Except ApiError (List WalletAddress)
  | [] => .ok []
  | p :: rest =>
    match gen p.1 p.2 with
    | .error e => .error e
    | .ok w =>
      match runPairs gen rest with
      | .error e => .error e
      | .ok ws => .ok (w :: ws)

theorem runPairs_append (gen : ChainType → Nat → Except ApiError WalletAddress)
    (l1 l2 : List (ChainType × Nat)) :
    runPairs gen (l1 ++ l2) =
      match runPairs gen l1 with
      | .error e => .error e
      | .ok ws =>
        match runPairs gen l2 with
        | .error e => .error e
        | .ok rest => .ok (ws ++ rest) := by
  induction l1 with
  | nil =>
    simp only [List.nil_append, runPairs]
    cases runPairs gen l2 with
    | error e => rfl
    | ok ws => rfl
  | cons p l1 ih =>
    simp only [List.cons_append, runPairs, List.append_eq]
    rw [ih]
    cases gen p.1 p.2 with
    | error e => rfl
    | ok w =>
      cases runPairs gen l1 with
      | error e => rfl
      | ok ws =>
        cases runPairs gen l2 with
        | error e => rfl
        | ok rest => simp

theorem genForChain_eq_runPairs (gen : ChainType → Nat → Except ApiError WalletAddress)
    (c : ChainType) (indices : List Nat) :
    genForChain gen c indices = runPairs gen (indices.map (fun i => (c, i))) := by
  induction indices with
  | nil => rfl
  | cons i rest ih =>
    simp only [List.map_cons, genForChain, runPairs, ih]

theorem batchChains_eq_runPairs (gen : ChainType → Nat → Except ApiError WalletAddress)
    (indices : List Nat) (cs : List ChainType) :
    batchChains gen indices cs =
      runPairs gen (cs.flatMap (fun c => indices.map (fun i => (c, i)))) := by
  induction cs with
  | nil => rfl
  | cons c cs ih =>
    simp only [List.flatMap_cons, batchChains, ih, genForChain_eq_runPairs,
      runPairs_append]

theorem batch_eq_runPairs (gen : ChainType → Nat → Except ApiError WalletAddress)
    (address_types : List ChainType) (start_index count : Nat) :
    batch_generate_wallet_addresses gen address_types start_index count =
      runPairs gen (batchPairs address_types start_index count) := by
  simp only [batch_generate_wallet_addresses, batchPairs, batchChains_eq_runPairs]

theorem runPairs_all_ok (gen : ChainType → Nat → Except ApiError WalletAddress)
    (w : ChainType → Nat → WalletAddress)
    (l : List (ChainType × Nat)) (h : ∀ p ∈ l, gen p.1 p.2 = .ok (w p.1 p.2)) :
    runPairs gen l = .ok (l.map (fun p => w p.1 p.2)) := by
  induction l with
  | nil => rfl
  | cons p rest ih =>
    simp only [runPairs, h p (List.mem_cons_self p rest),
      ih (fun q hq => h q (List.mem_cons_of_mem p hq)), List.map_cons]

theorem runPairs_first_error (gen : ChainType → Nat → Except ApiError WalletAddress)
    (pre : List (ChainType × Nat)) (c : ChainType) (i : Nat) (e : ApiError)
    (suf : List (ChainType × Nat))
    (hpre : ∀ p ∈ pre, ∃ wa, gen p.1 p.2 = Except.ok wa)
    (herr : gen c i = .error e) :
    runPairs gen (pre ++ (c, i) :: suf) = .error e := by
  induction pre with
  | nil => simp only [List.nil_append, runPairs, herr]
  | cons p pre ih =>
    obtain ⟨wa, hwa⟩ := hpre p (List.mem_cons_self p pre)
    simp only [List.cons_append, runPairs, hwa, List.append_eq,
      ih (fun q hq => hpre q (List.mem_cons_of_mem p hq))]

/-! ## Decidability of `Except` equality, for concrete evaluations -/

instance {ε α : Type} [DecidableEq ε] [DecidableEq α] : DecidableEq (Except ε α) :=
  fun a b =>
    match a, b with
    | .error e1, .error e2 =>
      if h : e1 = e2 then isTrue (by rw [h]) else isFalse (by intro hc; cases hc; exact h rfl)
    | .ok v1, .ok v2 =>
      if h : v1 = v2 then isTrue (by rw [h]) else isFalse (by intro hc; cases hc; exact h rfl)
    | .error _, .ok _ => isFalse (by intro hc; cases hc)
    | .ok _, .error _ => isFalse (by intro hc; cases hc)

/-- A 64-byte all-zero seed, used as the concrete input of the
evaluations below. -/
def zeroSeed : List Nat := List.replicate 64 0

/-- A placeholder wallet record, used to instantiate the batch theorems
at a concrete generator. -/
def sampleWallet (c : ChainType) (i : Nat) : WalletAddress :=
  ⟨"addr", c, get_chain_info c, "path", i, "pub", "priv"⟩

theorem lookup_none_of_not_mem (l : List (String × List ChainType)) (k : String)
    (h : k ∉ l.map Prod.fst) : l.lookup k = none := by
  induction l with
  | nil => rfl
  | cons p l ih =>
    simp only [List.map_cons, List.mem_cons, not_or] at h
    obtain ⟨h1, h2⟩ := h
    simp only [List.lookup]
    rw [beq_eq_false_iff_ne.mpr h1]
    exact ih h2

/-! ## The checked properties -/

/-- Claim C1, as stated, is false on the code: `get_chain_types_by_symbol`
maps "ETH" to the one-element list `[Ethereum]`, so it does not return
at least two chain types. -/
theorem C1_counterexample : ¬ 2 ≤ (get_chain_types_by_symbol "ETH").length := by decide

/-- Claim C1, amended: for the symbol "ETH", `get_chain_types_by_symbol`
returns exactly the one-element list `[Ethereum]`; Ethereum is among the
returned chain types, but it is the only one (the `ChainType`
enumeration has no Base, Arbitrum or Optimism variants). -/
theorem C1_eth_expansion :
    get_chain_types_by_symbol "ETH" = [ChainType.Ethereum] ∧
    ChainType.Ethereum ∈ get_chain_types_by_symbol "ETH" ∧
    (get_chain_types_by_symbol "ETH").length = 1 := by decide

/-- Claim C9: `get_chain_types_by_symbol` maps any symbol whose
uppercasing is "BTC" to exactly
`[BitcoinLegacy, BitcoinSegwit, BitcoinTaproot]` in that order, and any
symbol whose uppercasing is not a key of the registry to the empty
list. -/
theorem C9_btc_expansion_unknown_empty :
    (∀ s : String, rustToUppercase s = "BTC" →
      get_chain_types_by_symbol s =
        [ChainType.BitcoinLegacy, ChainType.BitcoinSegwit, ChainType.BitcoinTaproot]) ∧
    (∀ s : String, rustToUppercase s ∉ symbolTable.map Prod.fst →
      get_chain_types_by_symbol s = []) := by
  constructor
  · intro s h
    simp only [get_chain_types_by_symbol, h]
    rfl
  · intro s h
    simp only [get_chain_types_by_symbol, lookup_none_of_not_mem symbolTable _ h]

/-- Witness for C9 at concrete inputs: the lowercase spelling "btc"
expands to the three Bitcoin chain types, and the unknown symbol
"WAGMI" gives the empty list. -/
theorem C9_btc_expansion_unknown_empty_witness :
    get_chain_types_by_symbol "btc" =
      [ChainType.BitcoinLegacy, ChainType.BitcoinSegwit, ChainType.BitcoinTaproot] ∧
    get_chain_types_by_symbol "WAGMI" = [] :=
  ⟨C9_btc_expansion_unknown_empty.1 "btc" (by decide),
   C9_btc_expansion_unknown_empty.2 "WAGMI" (by decide)⟩

/-- Claim C10, on the code as written: the `match` of `create_chain` has
no arm for `ChainType::Monero` even though the registry maps the symbol
"XMR" to `[Monero]`; every other `ChainType` value gets a driver.  (As
Rust, a `match` missing an arm of a closed enumeration does not even
compile, so the dispatch cannot return a driver for Monero.) -/
theorem C10_create_chain_monero_gap :
    create_chain ChainType.Monero = none ∧
    get_chain_types_by_symbol "XMR" = [ChainType.Monero] ∧
    (∀ c : ChainType, c = ChainType.Monero ∨ (create_chain c).isSome = true) := by decide

/-- Claim C8, as stated, is false on the code at 24 words: the source
samples 32 entropy bytes there (256 bits, the BIP-39 entropy size),
while `24 × 11 / 8 = 33`. -/
theorem C8_counterexample :
    generate_mnemonic_entropy_bytes "english" 24 = Except.ok 32 ∧
    24 * 11 / 8 = 33 ∧ (32 : Nat) ≠ 33 := by decide

/-- Claim C8, amended: for word counts 12, 15, 18, 21, 24 the service
samples exactly `word_count × 4 / 3` fresh entropy bytes (16, 20, 24,
28, 32 — the BIP-39 entropy sizes; for 24 words that is 32 bytes, not
`24 × 11 / 8 = 33`); every other word count fails with
`InvalidWordCount`. -/
theorem C8_entropy_bytes :
    (∀ wc ∈ [12, 15, 18, 21, 24],
      generate_mnemonic_entropy_bytes "english" wc = Except.ok (wc * 4 / 3)) ∧
    (∀ wc : Nat, wc ∉ [12, 15, 18, 21, 24] →
      generate_mnemonic_entropy_bytes "english" wc =
        Except.error (.InvalidWordCount wc)) := by
  constructor
  · intro wc h
    fin_cases h <;> decide
  · intro wc h
    simp only [List.mem_cons, List.not_mem_nil, or_false, not_or] at h
    obtain ⟨h1, h2, h3, h4, h5⟩ := h
    simp only [generate_mnemonic_entropy_bytes]
    rw [show parse_language "english" = Except.ok Bip39Language.English from by decide]
    simp only [if_neg h1, if_neg h2, if_neg h3, if_neg h4, if_neg h5]

/-- Witness for C8 at concrete inputs: 12 words sample 16 bytes, the
unsupported count 13 fails with `InvalidWordCount 13`. -/
theorem C8_entropy_bytes_witness :
    generate_mnemonic_entropy_bytes "english" 12 = Except.ok 16 ∧
    generate_mnemonic_entropy_bytes "english" 13 =
      Except.error (.InvalidWordCount 13) :=
  ⟨C8_entropy_bytes.1 12 (by decide), C8_entropy_bytes.2 13 (by decide)⟩

/-- Claim C6: when every single derivation succeeds (and the index range
does not overflow `u32`), the batch visits chain types in their given
order and, within each, the indices `start_index` up to but excluding
`start_index + count`, producing exactly one record per pair in that
order; the result length is `len(chain_types) × count`. -/
theorem C6_batch_order_and_length
    (gen : ChainType → Nat → Except ApiError WalletAddress)
    (w : ChainType → Nat → WalletAddress)
    (address_types : List ChainType) (start_index count : Nat)
    (hrange : start_index + count < 4294967296)
    (hgen : ∀ c i, gen c i = Except.ok (w c i)) :
    batch_generate_wallet_addresses gen address_types start_index count =
      Except.ok (address_types.flatMap (fun c =>
        (List.range' start_index count).map (fun i => w c i))) ∧
    (address_types.flatMap (fun c =>
      (List.range' start_index count).map (fun i => w c i))).length =
        address_types.length * count := by
  have hidx : u32RangeList start_index ((start_index + count) % 4294967296) =
      List.range' start_index count := by
    simp [u32RangeList, Nat.mod_eq_of_lt hrange]
  constructor
  · rw [batch_eq_runPairs,
      runPairs_all_ok gen w _ (fun p _ => hgen p.1 p.2)]
    congr 1
    simp only [batchPairs, hidx]
    induction address_types with
    | nil => rfl
    | cons c cs ih =>
      simp only [List.flatMap_cons, List.map_append, List.map_map, ih]
      rfl
  · induction address_types with
    | nil => simp
    | cons c cs ih =>
      simp only [List.flatMap_cons, List.length_append, List.length_map,
        List.length_range', ih, List.length_cons]
      ring

/-- Witness for C6 at a concrete instance: two chain types, indices 5
and 6, four records in chain-major order. -/
theorem C6_batch_order_and_length_witness :
    batch_generate_wallet_addresses (fun c i => Except.ok (sampleWallet c i))
        [ChainType.Ethereum, ChainType.Tezos] 5 2 =
      Except.ok ([ChainType.Ethereum, ChainType.Tezos].flatMap (fun c =>
        (List.range' 5 2).map (fun i => sampleWallet c i))) ∧
    ([ChainType.Ethereum, ChainType.Tezos].flatMap (fun c =>
      (List.range' 5 2).map (fun i => sampleWallet c i))).length = 2 * 2 :=
  C6_batch_order_and_length (fun c i => Except.ok (sampleWallet c i)) sampleWallet
    [ChainType.Ethereum, ChainType.Tezos] 5 2 (by decide) (fun c i => rfl)

/-- Claim C7: if the pairs the batch visits split as a prefix of
successful generations followed by a failing pair, the batch returns
that first error and no list of addresses at all. -/
theorem C7_batch_first_error
    (gen : ChainType → Nat → Except ApiError WalletAddress)
    (address_types : List ChainType) (start_index count : Nat)
    (pre suf : List (ChainType × Nat)) (c : ChainType) (i : Nat) (e : ApiError)
    (hsplit : batchPairs address_types start_index count = pre ++ (c, i) :: suf)
    (hpre : ∀ p ∈ pre, ∃ wa, gen p.1 p.2 = Except.ok wa)
    (herr : gen c i = Except.error e) :
    batch_generate_wallet_addresses gen address_types start_index count =
      Except.error e := by
  rw [batch_eq_runPairs, hsplit]
  exact runPairs_first_error gen pre c i e suf hpre herr

/-- Witness for C7 at a concrete instance: a generator that always fails
makes the batch return its error. -/
theorem C7_batch_first_error_witness :
    batch_generate_wallet_addresses (fun _ _ => Except.error ApiError.InvalidMnemonic)
        [ChainType.Ethereum] 0 1 = Except.error ApiError.InvalidMnemonic :=
  C7_batch_first_error (fun _ _ => Except.error ApiError.InvalidMnemonic)
    [ChainType.Ethereum] 0 1 [] [] ChainType.Ethereum 0 ApiError.InvalidMnemonic
    (by decide) (fun p hp => absurd hp (List.not_mem_nil p)) rfl

/-- Claim C3, as stated, is false on the code: for the Sui driver the
distinct indices 0 and 1 yield the same address and the same private
key, because `Sui::generate_address` never feeds the index into the
derivation. -/
theorem C3_counterexample :
    (0 : Nat) ≠ 1 ∧
    (Sui.generate_address zeroSeed "" 0).map (fun w => w.address) =
      (Sui.generate_address zeroSeed "" 1).map (fun w => w.address) ∧
    (Sui.generate_address zeroSeed "" 0).map (fun w => w.private_key) =
      (Sui.generate_address zeroSeed "" 1).map (fun w => w.private_key) :=
  ⟨by decide, rfl, rfl⟩

/-- Claim C3, amended: the index-distinctness property cannot include
Sui: `Sui::generate_address` ignores the index (its derivation path is
the fixed `m/44'/784'/0'/0'/0'`), so for any seed and passphrase all
index values yield the identical address string and identical
private-key string; only the echoed `index` field differs.  For the
other drivers distinctness is collision-resistance of the hash chain
and holds only with overwhelming probability, not as a theorem. -/
theorem C3_sui_ignores_index :
    ∀ (seed : List Nat) (pass : String) (i j : Nat),
      (Sui.generate_address seed pass i).map (fun w => w.address) =
        (Sui.generate_address seed pass j).map (fun w => w.address) ∧
      (Sui.generate_address seed pass i).map (fun w => w.private_key) =
        (Sui.generate_address seed pass j).map (fun w => w.private_key) :=
  fun _ _ _ _ => ⟨rfl, rfl⟩

/-- Claim C4, as stated, is false on the code: the Solana driver's
emitted path string is the hand-formatted three-level `m/44'/501'/0'`
(at index 0), which does not parse as a five-component derivation path
(the parse fails), while the internal tuple is `(44, 501, 0, 0, 0)`. -/
theorem C4_counterexample :
    (Solana.generate_address zeroSeed "" 0).map
        (fun w => parse_derivation_path w.derivation_path) = Except.ok none ∧
    Solana.derivation_path 0 = ⟨44, 501, 0, 0, 0⟩ := by
  constructor
  · decide
  · rfl

/-- Claim C4, amended: both display formatters round-trip — any
5-tuple parses back exactly from its `to_string` and its
`to_string_all_hardened` — and hence the emitted `derivation_path` of
the drivers that use these formatters (Tezos, NEAR and Sui below)
re-parses to the internal tuple; Solana, which hand-formats a
three-level string, is the exception. -/
theorem C4_path_roundtrip :
    (∀ p : DerivationPath,
      parse_derivation_path p.to_string = some p ∧
      parse_derivation_path p.to_string_all_hardened = some p) ∧
    (∀ (seed : List Nat) (pass : String) (i : Nat),
      (Tezos.generate_address seed pass i).map
        (fun w => parse_derivation_path w.derivation_path) =
        Except.ok (some (Tezos.derivation_path i))) ∧
    (∀ (seed : List Nat) (pass : String) (i : Nat),
      (Near.generate_address seed pass i).map
        (fun w => parse_derivation_path w.derivation_path) =
        Except.ok (some (Near.derivation_path i))) ∧
    (∀ (seed : List Nat) (pass : String) (i : Nat),
      (Sui.generate_address seed pass i).map
        (fun w => parse_derivation_path w.derivation_path) =
        Except.ok (some (Sui.derivation_path i))) := by
  refine ⟨fun p => ⟨parse_mixed_roundtrip p, parse_all_hardened_roundtrip p⟩, ?_, ?_, ?_⟩
  · intro seed pass i
    show Except.ok (parse_derivation_path
      (Tezos.derivation_path i).to_string_all_hardened) = _
    rw [parse_all_hardened_roundtrip]
  · intro seed pass i
    show Except.ok (parse_derivation_path
      (Near.derivation_path i).to_string_all_hardened) = _
    rw [parse_all_hardened_roundtrip]
  · intro seed pass i
    show Except.ok (parse_derivation_path
      (Sui.derivation_path i).to_string_all_hardened) = _
    rw [parse_all_hardened_roundtrip]

set_option maxHeartbeats 4000000

/-- The Ed25519 public key the Tezos driver computes at the all-zero
seed and index 0, as a literal, established once by kernel evaluation
so the address-level facts below can reuse it. -/
theorem tezos_pub_at_zero :
    Tezos.public_key_bytes zeroSeed 0 =
      [253, 160, 48, 65, 61, 208, 97, 142, 88, 159, 0, 73, 246, 171, 117, 195,
       97, 163, 84, 212, 15, 61, 15, 66, 30, 109, 0, 220, 110, 250, 100, 233] := by
  decide

/-- Unfolding of the Tezos address pipeline: the emitted address is the
Base58 encoding of the versioned truncated-Blake2b payload plus its
double-SHA256 checksum. -/
theorem tezos_address_unfold (seed : List Nat) (pass : String) (i : Nat) :
    (Tezos.generate_address seed pass i).map (fun w => w.address) =
      Except.ok (base58Encode
        ((6 :: 161 :: 159 :: (blake2b 32 (Tezos.public_key_bytes seed i)).take 20) ++
          (sha256 (sha256
            (6 :: 161 :: 159 :: (blake2b 32 (Tezos.public_key_bytes seed i)).take 20))).take 4)) :=
  rfl

/-- Unfolding of the first three characters of the Tezos address, for
the tz1 check. -/
theorem tezos_address_head_unfold (seed : List Nat) (pass : String) (i : Nat) :
    (Tezos.generate_address seed pass i).map (fun w => w.address.data.take 3) =
      Except.ok ((base58Encode
        ((6 :: 161 :: 159 :: (blake2b 32 (Tezos.public_key_bytes seed i)).take 20) ++
          (sha256 (sha256
            (6 :: 161 :: 159 :: (blake2b 32 (Tezos.public_key_bytes seed i)).take 20))).take 4)).data.take 3) :=
  rfl

/-- Intermediate values of the SLIP-0010 chains at the all-zero seed,
one 64-byte HMAC-SHA512 output each, established step by step below. -/
def slipL0 : List Nat := [175, 121, 10, 220, 28, 143, 96, 67, 197, 199, 157, 224, 213, 253, 6, 31, 125, 176, 56, 47, 116, 196, 194, 201, 109, 201, 33, 21, 36, 109, 35, 96, 17, 176, 122, 247, 209, 85, 43, 11, 206, 156, 41, 127, 5, 35, 107, 181, 230, 71, 167, 169, 153, 22, 209, 39, 149, 43, 112, 80, 48, 173, 52, 188]

/-- Chain value after the hardened step 44 from the master. -/
def slipL1 : List Nat := [239, 45, 154, 155, 141, 20, 109, 82, 151, 157, 113, 117, 18, 208, 40, 192, 125, 142, 222, 18, 250, 95, 236, 242, 211, 128, 86, 252, 116, 12, 61, 33, 104, 218, 117, 209, 190, 120, 230, 186, 113, 7, 28, 155, 238, 41, 218, 134, 41, 47, 44, 6, 194, 217, 47, 0, 83, 250, 94, 29, 43, 22, 53, 217]

/-- Stellar branch: after the hardened step 148. -/
def slipL2s : List Nat := [7, 186, 133, 203, 225, 234, 49, 216, 113, 236, 114, 139, 240, 195, 118, 9, 217, 253, 250, 234, 226, 131, 226, 32, 144, 144, 246, 67, 127, 213, 126, 202, 20, 52, 238, 227, 223, 19, 159, 229, 231, 42, 24, 76, 9, 112, 62, 19, 39, 141, 59, 35, 75, 169, 67, 28, 190, 147, 41, 226, 109, 190, 14, 175]

/-- Stellar branch: after the final hardened step 0. -/
def slipL3s : List Nat := [116, 176, 3, 147, 64, 240, 55, 82, 232, 222, 71, 154, 55, 167, 184, 151, 98, 123, 75, 126, 127, 214, 119, 38, 234, 139, 127, 200, 175, 213, 208, 99, 52, 178, 11, 63, 46, 24, 51, 13, 81, 96, 219, 218, 87, 113, 244, 180, 240, 20, 140, 167, 66, 2, 37, 130, 20, 152, 136, 133, 129, 233, 3, 166]

/-- NEAR branch: after the hardened step 397. -/
def slipM2 : List Nat := [100, 7, 101, 152, 250, 180, 69, 15, 222, 124, 245, 80, 40, 202, 186, 134, 94, 103, 213, 173, 170, 160, 188, 172, 241, 91, 56, 167, 224, 227, 129, 130, 5, 141, 170, 167, 107, 117, 43, 187, 223, 53, 172, 56, 13, 235, 160, 147, 111, 198, 143, 112, 220, 193, 4, 95, 227, 119, 159, 129, 31, 56, 228, 70]

/-- NEAR branch: after the first hardened step 0. -/
def slipM3 : List Nat := [16, 43, 180, 231, 12, 203, 220, 73, 10, 181, 109, 195, 66, 175, 23, 112, 183, 9, 228, 9, 7, 102, 59, 73, 229, 189, 53, 8, 123, 160, 62, 17, 86, 74, 228, 14, 115, 35, 115, 224, 101, 108, 17, 224, 120, 94, 211, 254, 34, 104, 213, 197, 128, 201, 195, 240, 59, 179, 80, 133, 250, 89, 243, 219]

/-- NEAR branch: after the second hardened step 0. -/
def slipM4 : List Nat := [139, 33, 26, 189, 89, 240, 18, 207, 76, 156, 21, 142, 68, 237, 201, 77, 251, 184, 204, 75, 101, 178, 227, 95, 232, 120, 151, 1, 196, 90, 43, 58, 96, 62, 246, 10, 158, 94, 4, 183, 44, 86, 166, 15, 209, 253, 221, 191, 126, 101, 203, 160, 121, 198, 251, 4, 145, 251, 150, 26, 75, 93, 149, 251]

/-- NEAR branch: after the third hardened step 0. -/
def slipM5 : List Nat := [126, 88, 48, 177, 165, 190, 248, 163, 53, 238, 38, 123, 15, 44, 19, 45, 10, 66, 176, 205, 196, 130, 51, 70, 63, 99, 115, 70, 205, 28, 80, 100, 99, 118, 175, 188, 14, 163, 30, 218, 45, 231, 56, 152, 222, 48, 181, 245, 126, 118, 233, 234, 20, 15, 22, 135, 215, 238, 164, 222, 243, 81, 65, 159]

theorem slip10_master_at_zero :
    hmacSha512 (asciiBytes "ed25519 seed") zeroSeed = slipL0 := by decide

theorem slip10_step_44h :
    slip10_step (slipL0.take 32, slipL0.drop 32) 2147483692 =
      (slipL1.take 32, slipL1.drop 32) := by decide

theorem slip10_step_148h :
    slip10_step (slipL1.take 32, slipL1.drop 32) 2147483796 =
      (slipL2s.take 32, slipL2s.drop 32) := by decide

theorem slip10_step_stellar0h :
    slip10_step (slipL2s.take 32, slipL2s.drop 32) 2147483648 =
      (slipL3s.take 32, slipL3s.drop 32) := by decide

theorem slip10_step_397h :
    slip10_step (slipL1.take 32, slipL1.drop 32) 2147484045 =
      (slipM2.take 32, slipM2.drop 32) := by decide

theorem slip10_step_near0a :
    slip10_step (slipM2.take 32, slipM2.drop 32) 2147483648 =
      (slipM3.take 32, slipM3.drop 32) := by decide

theorem slip10_step_near0b :
    slip10_step (slipM3.take 32, slipM3.drop 32) 2147483648 =
      (slipM4.take 32, slipM4.drop 32) := by decide

theorem slip10_step_near0c :
    slip10_step (slipM4.take 32, slipM4.drop 32) 2147483648 =
      (slipM5.take 32, slipM5.drop 32) := by decide

theorem slip10_stellar_at_zero :
    slip10_derive zeroSeed [2147483692, 2147483796, 2147483648] = slipL3s.take 32 := by
  show ([2147483692, 2147483796, 2147483648].foldl slip10_step
    ((hmacSha512 (asciiBytes "ed25519 seed") zeroSeed).take 32,
     (hmacSha512 (asciiBytes "ed25519 seed") zeroSeed).drop 32)).1 = slipL3s.take 32
  rw [slip10_master_at_zero, List.foldl_cons, slip10_step_44h, List.foldl_cons,
    slip10_step_148h, List.foldl_cons, slip10_step_stellar0h, List.foldl_nil]

theorem slip10_near_at_zero :
    slip10_derive zeroSeed
      [2147483692, 2147484045, 2147483648, 2147483648, 2147483648] = slipM5.take 32 := by
  show ([2147483692, 2147484045, 2147483648, 2147483648, 2147483648].foldl slip10_step
    ((hmacSha512 (asciiBytes "ed25519 seed") zeroSeed).take 32,
     (hmacSha512 (asciiBytes "ed25519 seed") zeroSeed).drop 32)).1 = slipM5.take 32
  rw [slip10_master_at_zero, List.foldl_cons, slip10_step_44h, List.foldl_cons,
    slip10_step_397h, List.foldl_cons, slip10_step_near0a, List.foldl_cons,
    slip10_step_near0b, List.foldl_cons, slip10_step_near0c, List.foldl_nil]

theorem stellar_derive_at_zero :
    Stellar.derive_ed25519_key zeroSeed (Stellar.derivation_path 0) =
      [81, 35, 93, 25, 101, 84, 250, 246, 229, 47, 185, 127, 229, 178, 177, 92, 88, 191, 151, 200, 110, 217, 35, 101, 30, 167, 165, 12, 214, 87, 231, 36] := by
  decide

theorem near_derive_at_zero :
    Near.derive_ed25519_key zeroSeed (Near.derivation_path 0) =
      [212, 29, 166, 197, 59, 167, 72, 166, 150, 60, 112, 22, 138, 218, 96, 87, 157, 44, 120, 12, 154, 105, 165, 114, 141, 101, 29, 185, 169, 193, 19, 1] := by
  decide

/-- Claim C2, on the code as written: at the all-zero 64-byte seed the
Stellar and NEAR derivation engines disagree with the HMAC-SHA512
SLIP-0010 computation the claim (and the drivers' own comments) state —
they chain plain SHA-512 over `"ed25519 seed" || seed` and
`0x00 || priv || index_be32` and never key anything by the chain code —
while the Solana driver computes exactly the claimed SLIP-0010 chain.
The hardened index values are `0x80000000 + {44, 148, 397, 501, 0}`. -/
theorem C2_ed25519_engine_not_hmac :
    Stellar.derive_ed25519_key zeroSeed (Stellar.derivation_path 0) ≠
      slip10_derive zeroSeed [2147483692, 2147483796, 2147483648] ∧
    Near.derive_ed25519_key zeroSeed (Near.derivation_path 0) ≠
      slip10_derive zeroSeed
        [2147483692, 2147484045, 2147483648, 2147483648, 2147483648] ∧
    Solana.derive_ed25519_key zeroSeed (Solana.derivation_path 0) 0 =
      slip10_derive zeroSeed [2147483692, 2147484149, 2147483648] := by
  refine ⟨?_, ?_, rfl⟩
  · rw [stellar_derive_at_zero, slip10_stellar_at_zero]
    decide
  · rw [near_derive_at_zero, slip10_near_at_zero]
    decide

/-- Claim C5, as stated, is false on the code: at the all-zero seed and
index 0 the Tezos address is not `Base58Check(0x06A19F || Blake2b-160(pub))`
— the driver hashes the public key with Blake2b-256 and truncates the
32-byte digest to 20 bytes, which differs from the 20-byte-output
Blake2b-160 (the digest length enters Blake2b's initialisation). -/
theorem C5_counterexample :
    (Tezos.generate_address zeroSeed "" 0).map (fun w => w.address) ≠
      Except.ok (base58check
        (6 :: 161 :: 159 :: blake2b 20 (Tezos.public_key_bytes zeroSeed 0))) := by
  rw [tezos_address_unfold zeroSeed "" 0, tezos_pub_at_zero]
  decide

/-- Claim C5, amended: the Tezos driver derives at `m/44'/1729'/0'/0'/i'`
(with the Ed25519 scheme of its `derive_ed25519_key`) and returns
`Base58Check(0x06A19F || first-20-bytes-of-Blake2b-256(pub))` — a
truncated 32-byte Blake2b digest, not Blake2b-160 — with the double-
SHA256 4-byte checksum, Base58-encoded; at the all-zero seed and
index 0 the address starts with "tz1". -/
theorem C5_tezos_address :
    (∀ (seed : List Nat) (pass : String) (i : Nat),
      (Tezos.generate_address seed pass i).map (fun w => w.address) =
        Except.ok (base58check
          (6 :: 161 :: 159 :: (blake2b 32 (Tezos.public_key_bytes seed i)).take 20))) ∧
    (∀ (seed : List Nat) (pass : String) (i : Nat),
      (Tezos.generate_address seed pass i).map (fun w => w.derivation_path) =
        Except.ok (DerivationPath.to_string_all_hardened ⟨44, 1729, 0, 0, i⟩)) ∧
    (Tezos.generate_address zeroSeed "" 0).map (fun w => w.address.data.take 3) =
      Except.ok ['t', 'z', '1'] := by
  refine ⟨fun seed pass i => rfl, fun seed pass i => rfl, ?_⟩
  rw [tezos_address_head_unfold zeroSeed "" 0, tezos_pub_at_zero]
  decide
